import Mathlib

/-!
Shallow embedding of the auto-restart supervisor found in this repository
(three variants: src/restart-1.py calendar-time, src/restart-2.py fixed
interval, src/restart-3-graceful+forced.py external watchdog), together
with theorems settling the spec claims about it.
-/

namespace UtilFastapi

/-- An HTTP response as produced by a FastAPI handler or middleware:
a status code and a body.  A handler that returns a plain dict gets
FastAPI's default status 200. -/
structure Response where
  status : Nat
  body : String
deriving DecidableEq

/-- The two termination signals the variants send (signal.SIGTERM,
signal.SIGKILL). -/
inductive Sig where
  | sigterm
  | sigkill
deriving DecidableEq

/-- One step of a restart routine body, as written in the Python source:
assignments to the globals `last_restart_time` / `restart_in_progress`,
an `os.kill(pid, sig)` call, or a `time.sleep(secs)` call. -/
inductive Step where
  | setLast (t : Nat)
  | setInProgress
  | osKill (sig : Sig)
  | timeSleep (secs : Nat)
deriving DecidableEq

namespace Restart1

/-- Module-level names bound by src/restart-1.py, lines 1-27: the imports
(`from datetime import datetime, timedelta, time as dtime` binds `dtime`,
not `time`) and the module globals.  The name `time` is never bound. -/
def boundNames : List String :=
  ["os", "signal", "logging", "datetime", "timedelta", "dtime", "timezone",
   "uvicorn", "FastAPI", "BackgroundTasks", "Request", "JSONResponse",
   "BackgroundScheduler", "logger", "app", "last_restart_time",
   "default_restart_time", "should_restart", "restart_in_progress",
   "scheduler"]

/-- The mutable module globals of src/restart-1.py that the claims touch:
`last_restart_time`, `restart_in_progress`, the scheduler's armed job fire
times, and `restart_interval_hours` (unbound until /admin/configure first
assigns it, hence an Option). -/
structure St where
  last_restart_time : Nat
  restart_in_progress : Bool
  jobs : List Nat
  restart_interval_hours : Option Int
deriving DecidableEq

/-- Outcome of running a routine body: the globals afterwards, the signals
sent (in order), and whether execution aborted with a NameError. -/
structure Exec where
  state : St
  signals : List Sig
  nameError : Bool
deriving DecidableEq

/-- Runs a routine body under the module's bound names.  `time.sleep`
evaluates the name `time` first: if it is not bound, the statement raises
NameError and execution of the body stops there (Python semantics). -/
def runSteps (env : List String) : List Step → St → Exec
  | [], s => { state := s, signals := [], nameError := false }
  | Step.setLast t :: rest, s =>
      runSteps env rest { s with last_restart_time := t }
  | Step.setInProgress :: rest, s =>
      runSteps env rest { s with restart_in_progress := true }
  | Step.osKill sig :: rest, s =>
      let e := runSteps env rest s
      { e with signals := sig :: e.signals }
  | Step.timeSleep _ :: rest, s =>
      if "time" ∈ env then runSteps env rest s
      else { state := s, signals := [], nameError := true }

/-- Body of `perform_restart` (src/restart-1.py lines 29-48), run at wall
clock `now`: record `last_restart_time = now`, set
`restart_in_progress = True`, send SIGTERM, `time.sleep(30)`, send
SIGKILL. -/
def perform_restart_body (now : Nat) : List Step :=
  [Step.setLast now, Step.setInProgress, Step.osKill Sig.sigterm,
   Step.timeSleep 30, Step.osKill Sig.sigkill]

/-- `perform_restart` run against the module globals. -/
def perform_restart (s : St) (now : Nat) : Exec :=
  runSteps boundNames (perform_restart_body now) s

/-- A scheduled fire: APScheduler removes the one-shot date job when it
runs, then executes `perform_restart`. -/
def onFire (s : St) (now : Nat) : Exec :=
  perform_restart { s with jobs := s.jobs.drop 1 } now

/-- Body of the `delayed_restart` closure inside `manual_restart`
(src/restart-1.py lines 130-134): `time.sleep(1)`, SIGTERM,
`time.sleep(30)`, SIGKILL. -/
def delayed_restart_body : List Step :=
  [Step.timeSleep 1, Step.osKill Sig.sigterm, Step.timeSleep 30,
   Step.osKill Sig.sigkill]

/-- The `delayed_restart` background task run against the module
globals. -/
def delayed_restart (s : St) : Exec :=
  runSteps boundNames delayed_restart_body s

/-- The 503 response built by the middleware (src/restart-1.py
lines 63-66). -/
def unavailableResponse : Response :=
  { status := 503,
    body := "Server unavailable due to scheduled activity. Please try again later." }

/-- Middleware `check_restart_status` (src/restart-1.py lines 59-68):
if `restart_in_progress` is true, short-circuit with the 503 response,
otherwise call the route handler and return its response unmodified. -/
def check_restart_status (restart_in_progress : Bool)
    (callNext : String → Response) (req : String) : Response :=
  if restart_in_progress then unavailableResponse else callNext req

/-- Seconds per calendar day, for the wall-clock schedule model. -/
def secondsPerDay : Nat := 86400

/-- `now.replace(hour=h, minute=m, second=0, microsecond=0)` in a model
where instants are seconds of local time: the instant `h:m:00` of the
calendar day containing `now` (src/restart-1.py line 53). -/
def todayAt (now hour minute : Nat) : Nat :=
  now / secondsPerDay * secondsPerDay + hour * 3600 + minute * 60

/-- `schedule_restart` (src/restart-1.py lines 50-57): today's occurrence
of hour:minute; if `now >= next_restart`, roll forward one day.  Returns
the armed fire time. -/
def schedule_restart (hour minute now : Nat) : Nat :=
  if todayAt now hour minute ≤ now then todayAt now hour minute + secondsPerDay
  else todayAt now hour minute

/-- Endpoint `manual_restart` (src/restart-1.py lines 119-137): sets
`restart_in_progress = True` unconditionally (no check of its prior
value), appends a `delayed_restart` task to the background task queue,
and answers 200 with a restarting message. -/
def manual_restart (s : St) (pending : List (List Step)) :
    St × List (List Step) × Response :=
  ({ s with restart_in_progress := true },
   pending ++ [delayed_restart_body],
   { status := 200, body := "Application restarting..." })

/-- Endpoint `configure_restart` (src/restart-1.py lines 139-157): if
`interval_hours < 1`, return the error dict (FastAPI default status 200)
and leave every global untouched; otherwise store the interval and
reschedule each armed job onto an interval trigger whose next fire is
`now` plus the interval. -/
def configure_restart (s : St) (interval_hours : Int) (now : Nat) :
    Response × St :=
  if interval_hours < 1 then
    ({ status := 200, body := "Interval must be at least 1 hour" }, s)
  else
    ({ status := 200, body := "Restart interval configured" },
     { s with restart_interval_hours := some interval_hours,
              jobs := s.jobs.map (fun _ => now + interval_hours.toNat * 3600) })

end Restart1

namespace Restart2

/-- Module-level names bound by src/restart-2.py, lines 1-24: unlike the
calendar variant, `import time` is present, so `time` IS bound. -/
def boundNames : List String :=
  ["os", "signal", "threading", "time", "logging", "datetime", "uvicorn",
   "FastAPI", "BackgroundTasks", "logger", "app", "last_restart_time",
   "restart_interval_hours", "restart_thread", "should_restart"]

/-- The mutable module globals of src/restart-2.py that the claims touch:
the configured interval, the wake (fire) times of the live scheduler
threads, and `last_restart_time`. -/
structure St where
  restart_interval_hours : Int
  threads : List Nat
  last_restart_time : Nat
deriving DecidableEq

/-- Fire time of `scheduled_restart_task` (src/restart-2.py lines 26-43):
the thread sleeps `restart_interval_hours * 3600` seconds from the moment
it starts, then performs the restart, so a thread started at `startedAt`
fires at `startedAt + interval_hours * 3600`. -/
def scheduled_restart_task_fire (startedAt interval_hours : Nat) : Nat :=
  startedAt + interval_hours * 3600

/-- `next_restart` as reported by the root endpoint (src/restart-2.py
line 75): `last_restart_time.timestamp() + restart_interval_hours * 3600`. -/
def root_next_restart (last interval_hours : Nat) : Nat :=
  last + interval_hours * 3600

/-- Body of the `delayed_restart` closure inside this variant's
`manual_restart` (src/restart-2.py lines 101-103): `time.sleep(1)` then
SIGTERM. -/
def delayed_restart_body : List Step :=
  [Step.timeSleep 1, Step.osKill Sig.sigterm]

/-- The `delayed_restart` background task of src/restart-2.py run under
this module's bound names (which include `time`). -/
def delayed_restart (s : Restart1.St) : Restart1.Exec :=
  Restart1.runSteps boundNames delayed_restart_body s

/-- Endpoint `manual_restart` (src/restart-2.py lines 94-106): appends a
`delayed_restart` task to the background task queue (there is no
in-progress flag in this variant and nothing is checked) and answers 200. -/
def manual_restart (pending : List (List Step)) :
    List (List Step) × Response :=
  (pending ++ [delayed_restart_body],
   { status := 200, body := "Application restarting..." })

/-- Endpoint `configure_restart` (src/restart-2.py lines 108-132): if
`interval_hours < 1`, return the error dict (FastAPI default status 200)
with no state change.  Otherwise store the new interval and start a new
scheduler thread, which will fire at `now + interval_hours * 3600`.  The
old thread survives: it is inside `time.sleep(old_interval * 3600)`, so
`join(timeout=1.0)` times out, and after waking it sends its SIGTERM
without re-checking `should_restart` (which has anyway been set back to
True); its wake time therefore stays armed. -/
def configure_restart (s : St) (interval_hours : Int) (now : Nat) :
    Response × St :=
  if interval_hours < 1 then
    ({ status := 200, body := "Interval must be at least 1 hour" }, s)
  else
    ({ status := 200, body := "Restart interval configured" },
     { s with restart_interval_hours := interval_hours,
              threads := s.threads ++ [now + interval_hours.toNat * 3600] })

end Restart2

namespace Restart3

/-- The facts about the target process that determine one run of
`restart_fastapi` (src/restart-3-graceful+forced.py lines 31-57): what
`find_fastapi_pid()` returned, whether the process still existed when
`os.kill(pid, SIGTERM)` was attempted, and whether `psutil.pid_exists(pid)`
still held after the 5-second grace sleep. -/
structure World where
  findResult : Option Nat
  aliveAtTerm : Bool
  aliveAfterGrace : Bool
deriving DecidableEq

/-- Observable outcome of one `restart_fastapi` run: the `(pid, signal)`
pairs sent in order, whether `start_fastapi()` was invoked, whether the
`except ProcessLookupError` branch logged its error, and whether any
exception escaped to the caller. -/
structure RunResult where
  signals : List (Nat × Sig)
  started : Bool
  loggedProcessLookupError : Bool
  raisedToCaller : Bool
deriving DecidableEq

/-- `restart_fastapi` (src/restart-3-graceful+forced.py lines 31-57).
If no pid was found, the else branch starts a fresh instance.  If a pid
was found, the `try` block sends SIGTERM, sleeps 5 seconds, sends SIGKILL
only when `psutil.pid_exists(pid)` still holds, then calls
`start_fastapi()` — all inside the `try`.  If the process was already gone
at the SIGTERM, `os.kill` raises ProcessLookupError, which the `except`
catches and logs; nothing later in the `try` block runs, so no relaunch
happens, and nothing propagates to the caller. -/
def restart_fastapi (w : World) : RunResult :=
  match w.findResult with
  | none =>
      { signals := [], started := true,
        loggedProcessLookupError := false, raisedToCaller := false }
  | some pid =>
      if w.aliveAtTerm then
        if w.aliveAfterGrace then
          { signals := [(pid, Sig.sigterm), (pid, Sig.sigkill)],
            started := true,
            loggedProcessLookupError := false, raisedToCaller := false }
        else
          { signals := [(pid, Sig.sigterm)], started := true,
            loggedProcessLookupError := false, raisedToCaller := false }
      else
        { signals := [], started := false,
          loggedProcessLookupError := true, raisedToCaller := false }

end Restart3

/-! Helper lemmas shared by several claim theorems. -/

/-- The name `time` is not among the module-level names of
src/restart-1.py. -/
theorem time_not_bound_restart1 : "time" ∉ Restart1.boundNames := by
  decide

/-- Running the body of `perform_restart` of src/restart-1.py: the two
global assignments happen, SIGTERM is sent, and then `time.sleep(30)`
raises NameError, so execution stops before the SIGKILL line. -/
theorem perform_restart_eq (s : Restart1.St) (now : Nat) :
    Restart1.perform_restart s now =
      { state := { s with last_restart_time := now,
                          restart_in_progress := true },
        signals := [Sig.sigterm], nameError := true } := by
  have h : ¬ ("time" ∈ Restart1.boundNames) := time_not_bound_restart1
  simp [Restart1.perform_restart, Restart1.perform_restart_body,
        Restart1.runSteps, h]

/-- Running the `delayed_restart` body of src/restart-1.py: the very
first statement is `time.sleep(1)`, so it raises NameError before
sending any signal and changes no state. -/
theorem delayed_restart1_eq (s : Restart1.St) :
    Restart1.delayed_restart s =
      { state := s, signals := [], nameError := true } := by
  have h : ¬ ("time" ∈ Restart1.boundNames) := time_not_bound_restart1
  simp [Restart1.delayed_restart, Restart1.delayed_restart_body,
        Restart1.runSteps, h]

/-- Running the `delayed_restart` body of src/restart-2.py, where `time`
is imported: the sleep succeeds and exactly one SIGTERM is sent. -/
theorem delayed_restart2_eq (s : Restart1.St) :
    Restart2.delayed_restart s =
      { state := s, signals := [Sig.sigterm], nameError := false } := by
  have h : ("time" ∈ Restart2.boundNames) := by decide
  simp [Restart2.delayed_restart, Restart2.delayed_restart_body,
        Restart1.runSteps, h]

/-! Claim theorems. -/

/-- Claim C1: the middleware of src/restart-1.py answers 503 exactly when
`restart_in_progress` is true at interception time, and otherwise returns
the route handler's response unmodified; hence, for handlers that do not
themselves answer 503, the service responds 503 iff the flag is true, on
every route. -/
theorem c1_request_gate (inProg : Bool) (callNext : String → Response)
    (req : String) :
    (inProg = true →
      Restart1.check_restart_status inProg callNext req =
        Restart1.unavailableResponse) ∧
    (inProg = false →
      Restart1.check_restart_status inProg callNext req = callNext req) ∧
    ((callNext req).status ≠ 503 →
      ((Restart1.check_restart_status inProg callNext req).status = 503 ↔
        inProg = true)) := by
  cases inProg <;>
    simp [Restart1.check_restart_status, Restart1.unavailableResponse]

/-- Witness for C1 at a concrete in-progress flag, handler and path. -/
theorem c1_request_gate_witness :
    Restart1.check_restart_status true
        (fun _ => { status := 200, body := "ok" }) "/some/route" =
      Restart1.unavailableResponse ∧
    Restart1.check_restart_status false
        (fun _ => { status := 200, body := "ok" }) "/some/route" =
      { status := 200, body := "ok" } := by
  refine ⟨?_, ?_⟩
  · exact (c1_request_gate true (fun _ => { status := 200, body := "ok" })
      "/some/route").1 rfl
  · exact (c1_request_gate false (fun _ => { status := 200, body := "ok" })
      "/some/route").2.1 rfl

/-- Claim C4: `schedule_restart` of src/restart-1.py returns the instant
hour:minute (sub-minute part zero) of the current calendar day when that
instant is strictly after `now`, and otherwise that instant plus one day;
the result is always strictly after `now`.  It is a Lean function of
(hour, minute, now), hence pure: recomputation from the same `now` gives
the same fire time. -/
theorem c4_wall_clock_schedule (hour minute now : Nat) :
    (now < Restart1.todayAt now hour minute →
      Restart1.schedule_restart hour minute now =
        Restart1.todayAt now hour minute) ∧
    (Restart1.todayAt now hour minute ≤ now →
      Restart1.schedule_restart hour minute now =
        Restart1.todayAt now hour minute + Restart1.secondsPerDay) ∧
    now < Restart1.schedule_restart hour minute now ∧
    Restart1.schedule_restart hour minute now % 60 = 0 := by
  unfold Restart1.schedule_restart Restart1.todayAt Restart1.secondsPerDay
  refine ⟨?_, ?_, ?_, ?_⟩ <;> (try split) <;> omega

/-- Witness for C4 on both calendar branches: at midnight, 23:30 of the
same day is still ahead; at 86000 seconds it has passed and the fire time
rolls to the next day. -/
theorem c4_wall_clock_schedule_witness :
    Restart1.schedule_restart 23 30 0 = Restart1.todayAt 0 23 30 ∧
    Restart1.schedule_restart 23 30 86000 =
      Restart1.todayAt 86000 23 30 + Restart1.secondsPerDay := by
  refine ⟨?_, ?_⟩
  · exact (c4_wall_clock_schedule 23 30 0).1 (by decide)
  · exact (c4_wall_clock_schedule 23 30 86000).2.1 (by decide)

/-- Claim C2 counterexample: with `restart_in_progress` already true and
one termination task already pending (one episode in flight), a second
POST /admin/restart does not no-op: `manual_restart` of src/restart-1.py
never reads the flag, and the pending termination-task count goes from 1
to 2, so a second termination sequence is started. -/
theorem c2_counterexample :
    (Restart1.manual_restart
        { last_restart_time := 0, restart_in_progress := true,
          jobs := [], restart_interval_hours := none }
        [Restart1.delayed_restart_body]).2.1.length = 2 ∧
    ¬ (Restart1.manual_restart
        { last_restart_time := 0, restart_in_progress := true,
          jobs := [], restart_interval_hours := none }
        [Restart1.delayed_restart_body]).2.1.length = 1 := by
  constructor <;> decide

/-- Claim C2 amended: the manual trigger never consults
`restart_in_progress`.  In src/restart-1.py every POST /admin/restart
unconditionally sets the flag to true and appends one more
`delayed_restart` termination task, so a trigger arriving while a restart
is already in progress schedules a second termination sequence instead of
no-oping; src/restart-2.py likewise appends a task unconditionally (it has
no in-progress flag at all), and each of its tasks sends its own
SIGTERM. -/
theorem c2_amended (s : Restart1.St) (pending : List (List Step)) :
    (Restart1.manual_restart s pending).1.restart_in_progress = true ∧
    (Restart1.manual_restart s pending).2.1 =
      pending ++ [Restart1.delayed_restart_body] ∧
    (Restart1.manual_restart s pending).2.1.length = pending.length + 1 ∧
    (∀ pending2 : List (List Step),
      (Restart2.manual_restart pending2).1 =
        pending2 ++ [Restart2.delayed_restart_body]) ∧
    (∀ s2 : Restart1.St,
      (Restart2.delayed_restart s2).signals = [Sig.sigterm]) := by
  refine ⟨rfl, rfl, by simp [Restart1.manual_restart], fun _ => rfl, ?_⟩
  intro s2
  rw [delayed_restart2_eq]

/-- Claim C3 counterexample: POST /admin/configure with
`interval_hours = 0` is answered by the error dict with FastAPI's default
status 200, not 400, in both src/restart-1.py and src/restart-2.py
(state is indeed unchanged). -/
theorem c3_counterexample :
    (Restart1.configure_restart
        { last_restart_time := 0, restart_in_progress := false,
          jobs := [84600], restart_interval_hours := none } 0 1000).1.status
      = 200 ∧
    ¬ (Restart1.configure_restart
        { last_restart_time := 0, restart_in_progress := false,
          jobs := [84600], restart_interval_hours := none } 0 1000).1.status
      = 400 ∧
    (Restart2.configure_restart
        { restart_interval_hours := 6, threads := [21600],
          last_restart_time := 0 } 0 1000).1.status = 200 := by
  refine ⟨by decide, by decide, by decide⟩

/-- Claim C3 amended: every POST /admin/configure with
`interval_hours < 1` is rejected synchronously with a response whose
status is FastAPI's default 200 (not 400) and whose body is the error
message, and it has no side effects: in both variants the full state —
policy interval, armed fire times, restart flags and last-restart time —
is returned exactly as it was. -/
theorem c3_amended (s : Restart1.St) (s2 : Restart2.St)
    (interval_hours : Int) (now : Nat) (h : interval_hours < 1) :
    Restart1.configure_restart s interval_hours now =
      ({ status := 200, body := "Interval must be at least 1 hour" }, s) ∧
    Restart2.configure_restart s2 interval_hours now =
      ({ status := 200, body := "Interval must be at least 1 hour" }, s2) := by
  constructor <;>
    simp [Restart1.configure_restart, Restart2.configure_restart, h]

/-- Witness for the amended C3 at `interval_hours = 0` on concrete
states. -/
theorem c3_amended_witness :
    Restart1.configure_restart
        { last_restart_time := 5, restart_in_progress := false,
          jobs := [100], restart_interval_hours := none } 0 7 =
      ({ status := 200, body := "Interval must be at least 1 hour" },
       { last_restart_time := 5, restart_in_progress := false,
         jobs := [100], restart_interval_hours := none }) ∧
    Restart2.configure_restart
        { restart_interval_hours := 6, threads := [21600],
          last_restart_time := 0 } 0 7 =
      ({ status := 200, body := "Interval must be at least 1 hour" },
       { restart_interval_hours := 6, threads := [21600],
         last_restart_time := 0 }) :=
  c3_amended
    { last_restart_time := 5, restart_in_progress := false,
      jobs := [100], restart_interval_hours := none }
    { restart_interval_hours := 6, threads := [21600],
      last_restart_time := 0 } 0 7 (by decide)

/-- Claim C5 counterexample: a scheduled fire in src/restart-1.py does
not recompute a next fire time.  Starting from a state whose only armed
job is the fire at 84600, after `onFire` the armed job list is empty —
the system is unscheduled, though `inProgress` and `lastRestartAt` were
set as claimed. -/
theorem c5_counterexample :
    (Restart1.onFire
        { last_restart_time := 0, restart_in_progress := false,
          jobs := [84600], restart_interval_hours := none }
        84600).state.jobs = [] ∧
    ¬ (Restart1.onFire
        { last_restart_time := 0, restart_in_progress := false,
          jobs := [84600], restart_interval_hours := none }
        84600).state.jobs ≠ [] := by
  constructor <;> simp [Restart1.onFire, perform_restart_eq]

/-- Claim C5 amended: every scheduled fire in src/restart-1.py sets
`inProgress` to true, records `lastRestartAt = now`, and invokes the
termination sequence (SIGTERM is sent; the sequence then aborts with
NameError before the forceful step), but it never recomputes or stores a
new fire time: the fired one-shot job is removed and nothing is re-armed,
so after a scheduled fire the system has no armed next fire time
(scheduling happens only at process startup). -/
theorem c5_amended (s : Restart1.St) (now : Nat) :
    (Restart1.onFire s now).state.restart_in_progress = true ∧
    (Restart1.onFire s now).state.last_restart_time = now ∧
    (Restart1.onFire s now).signals = [Sig.sigterm] ∧
    (Restart1.onFire s now).nameError = true ∧
    (Restart1.onFire s now).state.jobs = s.jobs.drop 1 := by
  simp [Restart1.onFire, perform_restart_eq]

/-- Claim C6: in every termination sequence, the first signal sent (if
any) is the graceful SIGTERM, and a SIGKILL is sent exactly when a target
was found, was alive at the SIGTERM, and was still alive when the
5-second grace period expired (src/restart-3-graceful+forced.py); in
src/restart-1.py the sequence sends SIGTERM and aborts before the SIGKILL
line, so no forceful signal is ever sent there either — in particular a
target that exits within the grace period never receives a forceful
signal. -/
theorem c6_graceful_then_forceful (w : Restart3.World) :
    (∀ pid sg, (Restart3.restart_fastapi w).signals.head? = some (pid, sg) →
      sg = Sig.sigterm) ∧
    ((∃ pid, (pid, Sig.sigkill) ∈ (Restart3.restart_fastapi w).signals) ↔
      ((∃ pid, w.findResult = some pid) ∧ w.aliveAtTerm = true ∧
        w.aliveAfterGrace = true)) ∧
    (∀ (s : Restart1.St) (now : Nat),
      (Restart1.perform_restart s now).signals = [Sig.sigterm] ∧
      Sig.sigkill ∉ (Restart1.perform_restart s now).signals) := by
  refine ⟨?_, ?_, ?_⟩
  · rcases w with ⟨f, aT, aG⟩
    rcases f with _ | pid <;> cases aT <;> cases aG <;>
      simp [Restart3.restart_fastapi]
  · rcases w with ⟨f, aT, aG⟩
    rcases f with _ | pid <;> cases aT <;> cases aG <;>
      simp [Restart3.restart_fastapi]
  · intro s now
    rw [perform_restart_eq]
    refine ⟨rfl, by simp⟩

/-- Witness for C6 at a target that stays alive through the grace period
(SIGKILL is sent) and at a concrete run of src/restart-1.py's
`perform_restart`. -/
theorem c6_graceful_then_forceful_witness :
    (∃ pid, (pid, Sig.sigkill) ∈
      (Restart3.restart_fastapi
        { findResult := some 42, aliveAtTerm := true,
          aliveAfterGrace := true }).signals) ∧
    (Restart1.perform_restart
      { last_restart_time := 0, restart_in_progress := false,
        jobs := [], restart_interval_hours := none } 7).signals =
      [Sig.sigterm] := by
  refine ⟨?_, ?_⟩
  · exact (c6_graceful_then_forceful
      { findResult := some 42, aliveAtTerm := true,
        aliveAfterGrace := true }).2.1.mpr ⟨⟨42, rfl⟩, rfl, rfl⟩
  · exact ((c6_graceful_then_forceful
      { findResult := some 42, aliveAtTerm := true,
        aliveAfterGrace := true }).2.2
      { last_restart_time := 0, restart_in_progress := false,
        jobs := [], restart_interval_hours := none } 7).1

/-- Claim C7 counterexample: in src/restart-2.py, with the scheduler
thread started at 0 under the default 6-hour interval (armed fire time
21600), reconfiguring to 2 hours at 3600 leaves TWO armed fire times:
the old thread survives the 1-second join and will still fire at 21600,
and the new thread fires at 3600 + 7200 = 10800.  The claim says exactly
one fire time is armed after a successful reconfiguration. -/
theorem c7_counterexample :
    (Restart2.configure_restart
        { restart_interval_hours := 6, threads := [21600],
          last_restart_time := 0 } 2 3600).2.threads = [21600, 10800] ∧
    (Restart2.configure_restart
        { restart_interval_hours := 6, threads := [21600],
          last_restart_time := 0 } 2 3600).2.threads.length = 2 := by
  constructor <;> decide

/-- Claim C7 amended: a successful reconfiguration in src/restart-2.py
stores the new interval and arms a new fire time at the reconfiguration
instant plus the new interval, but it does not cancel the old scheduler
thread (a 1-second join cannot stop a thread sleeping for the old
interval, and the thread never re-checks the stop flag after waking), so
the previously armed fire times all remain active alongside the new one
and a duplicate restart from the old schedule can occur. -/
theorem c7_amended (s : Restart2.St) (interval_hours : Int) (now : Nat)
    (h : 1 ≤ interval_hours) :
    (Restart2.configure_restart s interval_hours now).2.threads =
      s.threads ++ [now + interval_hours.toNat * 3600] ∧
    (Restart2.configure_restart s interval_hours now).2.restart_interval_hours
      = interval_hours ∧
    (Restart2.configure_restart s interval_hours now).1.status = 200 := by
  have hn : ¬ interval_hours < 1 := not_lt.mpr h
  simp [Restart2.configure_restart, hn]

/-- Witness for the amended C7 at the concrete reconfiguration of the
counterexample. -/
theorem c7_amended_witness :
    (Restart2.configure_restart
        { restart_interval_hours := 6, threads := [21600],
          last_restart_time := 0 } 2 3600).2.threads =
      [21600] ++ [3600 + (2 : Int).toNat * 3600] :=
  (c7_amended
    { restart_interval_hours := 6, threads := [21600],
      last_restart_time := 0 } 2 3600 (by decide)).1

/-- Claim C8: for a fixed-interval policy of `d` hours (d ≥ 1), the
scheduler thread of src/restart-2.py started at `now` fires exactly at
`now + d * 3600` seconds — strictly after `now` — and the root endpoint
reports the same next-restart instant; the fire time is a Lean function
of (d, now), hence pure. -/
theorem c8_fixed_interval (d now : Nat) (hd : 1 ≤ d) :
    Restart2.scheduled_restart_task_fire now d = now + d * 3600 ∧
    now < Restart2.scheduled_restart_task_fire now d ∧
    Restart2.root_next_restart now d =
      Restart2.scheduled_restart_task_fire now d := by
  unfold Restart2.scheduled_restart_task_fire Restart2.root_next_restart
  omega

/-- Witness for C8 at the default 6-hour interval from instant 0. -/
theorem c8_fixed_interval_witness :
    Restart2.scheduled_restart_task_fire 0 6 = 0 + 6 * 3600 ∧
    0 < Restart2.scheduled_restart_task_fire 0 6 ∧
    Restart2.root_next_restart 0 6 =
      Restart2.scheduled_restart_task_fire 0 6 :=
  c8_fixed_interval 6 0 (by decide)

/-- Claim C9 counterexample: in src/restart-3-graceful+forced.py, when
pid 42 was found but the process is already gone at the SIGTERM attempt,
the ProcessLookupError is caught and logged and nothing reaches the
caller, but `start_fastapi()` — which sits inside the `try` block after
the signalling — is skipped: the watchdog does NOT proceed to relaunch
the target, while the claim says the relaunch still proceeds. -/
theorem c9_counterexample :
    (Restart3.restart_fastapi
        { findResult := some 42, aliveAtTerm := false,
          aliveAfterGrace := false }).started = false ∧
    (Restart3.restart_fastapi
        { findResult := some 42, aliveAtTerm := false,
          aliveAfterGrace := false }).loggedProcessLookupError = true ∧
    (Restart3.restart_fastapi
        { findResult := some 42, aliveAtTerm := false,
          aliveAfterGrace := false }).raisedToCaller = false := by
  refine ⟨by decide, by decide, by decide⟩

/-- Claim C9 amended: whenever the target process no longer exists at the
moment the termination signal is attempted, the resulting
ProcessLookupError is caught inside `restart_fastapi`: the event is
logged (at error level) and no error is surfaced to the caller, but the
rest of the sequence is skipped — in particular the watchdog does not
relaunch the target and sends no signals. -/
theorem c9_amended (w : Restart3.World) (pid : Nat)
    (hf : w.findResult = some pid) (hd : w.aliveAtTerm = false) :
    Restart3.restart_fastapi w =
      { signals := [], started := false,
        loggedProcessLookupError := true, raisedToCaller := false } := by
  rcases w with ⟨f, aT, aG⟩
  simp only at hf hd
  subst hf
  subst hd
  simp [Restart3.restart_fastapi]

/-- Witness for the amended C9 at pid 42 already gone. -/
theorem c9_amended_witness :
    Restart3.restart_fastapi
        { findResult := some 42, aliveAtTerm := false,
          aliveAfterGrace := true } =
      { signals := [], started := false,
        loggedProcessLookupError := true, raisedToCaller := false } :=
  c9_amended
    { findResult := some 42, aliveAtTerm := false, aliveAfterGrace := true }
    42 rfl rfl

/-- Claim C10: src/restart-1.py never binds the name `time`
(`from datetime import ... time as dtime` binds `dtime`); consequently a
scheduled fire sends SIGTERM and then hits NameError at `time.sleep(30)`
before any forceful kill, the manual-restart background task hits
NameError at `time.sleep(1)` before sending any signal at all, and
`manual_restart` has already set `restart_in_progress = True`, so a
process that survives a manual-restart request answers 503 to every
subsequent request on every route. -/
theorem c10_missing_time_import :
    "time" ∉ Restart1.boundNames ∧
    (∀ (s : Restart1.St) (now : Nat),
      (Restart1.onFire s now).signals = [Sig.sigterm] ∧
      (Restart1.onFire s now).nameError = true ∧
      Sig.sigkill ∉ (Restart1.onFire s now).signals) ∧
    (∀ s : Restart1.St,
      (Restart1.delayed_restart s).signals = [] ∧
      (Restart1.delayed_restart s).nameError = true ∧
      (Restart1.delayed_restart s).state = s) ∧
    (∀ (s : Restart1.St) (pending : List (List Step))
        (callNext : String → Response) (req : String),
      (Restart1.manual_restart s pending).1.restart_in_progress = true ∧
      Restart1.check_restart_status
          (Restart1.manual_restart s pending).1.restart_in_progress
          callNext req = Restart1.unavailableResponse) := by
  refine ⟨time_not_bound_restart1, ?_, ?_, ?_⟩
  · intro s now
    simp [Restart1.onFire, perform_restart_eq]
  · intro s
    simp [delayed_restart1_eq]
  · intro s pending callNext req
    exact ⟨rfl, rfl⟩

/-- Witness for C10 at concrete state and request. -/
theorem c10_missing_time_import_witness :
    (Restart1.onFire
        { last_restart_time := 0, restart_in_progress := false,
          jobs := [84600], restart_interval_hours := none }
        84600).signals = [Sig.sigterm] ∧
    (Restart1.delayed_restart
        { last_restart_time := 0, restart_in_progress := false,
          jobs := [], restart_interval_hours := none }).signals = [] ∧
    Restart1.check_restart_status
        (Restart1.manual_restart
          { last_restart_time := 0, restart_in_progress := false,
            jobs := [], restart_interval_hours := none }
          []).1.restart_in_progress
        (fun _ => { status := 200, body := "ok" }) "/status" =
      Restart1.unavailableResponse := by
  refine ⟨?_, ?_, ?_⟩
  · exact (c10_missing_time_import.2.1
      { last_restart_time := 0, restart_in_progress := false,
        jobs := [84600], restart_interval_hours := none } 84600).1
  · exact (c10_missing_time_import.2.2.1
      { last_restart_time := 0, restart_in_progress := false,
        jobs := [], restart_interval_hours := none }).1
  · exact (c10_missing_time_import.2.2.2
      { last_restart_time := 0, restart_in_progress := false,
        jobs := [], restart_interval_hours := none }
      [] (fun _ => { status := 200, body := "ok" }) "/status").2

end UtilFastapi
